import Mathlib

/-!
Verification of the metrics extraction and derivation engine of
`scalyr_agent/builtin_monitors/mysql_monitor.py`.

The Python source is shallowly embedded: pure functions become Lean
functions, fallible code returns `Except PyErr`, the database driver and
the regex engine (external collaborators) are abstracted as inputs.
Numeric metric values are modelled as exact rationals (`Rat`); where a
property genuinely depends on IEEE binary64 rounding of Python floats, a
separate binary64-faithful refinement (`roundRatDouble`-based) of the same
source function is provided and clearly marked.
-/

deriving instance DecidableEq for Except

namespace MysqlMon

/-- Python exception kinds that the embedded code can raise. -/
inductive PyErr where
  | keyError (key : String)
  | zeroDivisionError
  | typeError
  | valueError
  | attributeError
  deriving DecidableEq, Repr

/-- A typed scalar as produced by `_parse_value`: Python int, float, str or
(for raw driver values stored into records unchanged) None.  Floats are
modelled as exact rationals. -/
inductive Scalar where
  | int (n : Int)
  | float (q : Rat)
  | str (s : String)
  | pynone
  deriving DecidableEq, Repr

/-- A metric record, `{"field": ..., "value": ...}` with the optional
`"extra fields"` key modelled as a list that is empty when absent. -/
structure MetricRecord where
  field : String
  value : Scalar
  extraFields : List (String × String) := []
  deriving DecidableEq, Repr

/-- Python whitespace as stripped by `int(...)`/`float(...)`: space, tab,
newline, carriage return, vertical tab, form feed (by code point). -/
def isPySpace (c : Char) : Bool :=
  c.toNat = 32 || c.toNat = 9 || c.toNat = 10 || c.toNat = 13
    || c.toNat = 11 || c.toNat = 12

/-- ASCII decimal digit test (by code point). -/
def isDecDigit (c : Char) : Bool := 48 ≤ c.toNat && c.toNat ≤ 57

/-- Strip leading and trailing whitespace from a character list. -/
def trimChars (cs : List Char) : List Char :=
  ((cs.dropWhile isPySpace).reverse.dropWhile isPySpace).reverse

/-- Numeric value of a decimal digit character. -/
def decDigitVal (c : Char) : Nat := c.toNat - 48

/-- Fold a digit run into a natural number. -/
def digitsVal (cs : List Char) : Nat :=
  cs.foldl (fun a c => a * 10 + decDigitVal c) 0

/-- Parse a non-empty all-digit character list as a natural number
(the digit-run part of Python `int(...)`). -/
def parseDigits? (cs : List Char) : Option Nat :=
  if cs ≠ [] ∧ cs.all isDecDigit then some (digitsVal cs) else none

/-- Python 2 `int(text)`: strip whitespace, optional sign, decimal digits;
`none` models the `ValueError` on any other shape. -/
def pyInt? (s : String) : Option Int :=
  match trimChars s.data with
  | [] => none
  | c :: cs =>
    if c = '+' then (Int.ofNat ·) <$> parseDigits? cs
    else if c = '-' then (fun n => -(Int.ofNat n : Int)) <$> parseDigits? cs
    else (Int.ofNat ·) <$> parseDigits? (c :: cs)

/-- Parse the optional exponent suffix of a Python float literal. -/
def parseExp? (m : Rat) : List Char → Option Rat
  | [] => some m
  | c :: rest =>
    if c = 'e' || c = 'E' then
      let (sign, ds) :=
        match rest with
        | '+' :: ds => ((1 : Int), ds)
        | '-' :: ds => ((-1 : Int), ds)
        | ds => ((1 : Int), ds)
      if ds ≠ [] ∧ ds.all isDecDigit then
        let e := digitsVal ds
        some (if sign < 0 then m / (10 ^ e : Nat) else m * (10 ^ e : Nat))
      else none
    else none

/-- Parse an unsigned Python float literal body: `digits [. digits] [exp]`
or `. digits [exp]`, with at least one mantissa digit. -/
def parseUnsignedFloat? (cs : List Char) : Option Rat :=
  let (ip, rest) := (cs.takeWhile isDecDigit, cs.dropWhile isDecDigit)
  match rest with
  | '.' :: rest2 =>
    let (fp, rest3) := (rest2.takeWhile isDecDigit, rest2.dropWhile isDecDigit)
    if ip = [] ∧ fp = [] then none
    else parseExp? ((digitsVal ip : Rat) + (digitsVal fp : Rat) / ((10 : Rat) ^ fp.length)) rest3
  | _ => if ip = [] then none else parseExp? (digitsVal ip : Rat) rest

/-- Python 2 `float(text)` on decimal literals: strip whitespace, optional
sign, mantissa with optional fraction and exponent; `none` models
`ValueError`.  (The special forms `inf`/`nan` are not modelled; no claim
touches them.) -/
def pyFloat? (s : String) : Option Rat :=
  match trimChars s.data with
  | '+' :: cs => parseUnsignedFloat? cs
  | '-' :: cs => (fun q => -q) <$> parseUnsignedFloat? cs
  | cs => parseUnsignedFloat? cs

/-- Substring test for a single character, `c in s` in Python. -/
def strContainsChar (s : String) (c : Char) : Bool :=
  s.data.any (fun d => d == c)

/-- `MysqlDB._parse_value`: if the text contains a decimal point parse it as
a float, otherwise as an int; on parse failure keep the text as a string. -/
def parse_value (value : String) : Scalar :=
  if strContainsChar value '.' then
    match pyFloat? value with
    | some q => .float q
    | none => .str value
  else
    match pyInt? value with
    | some n => .int n
    | none => .str value

/-- Decimal digit character for `m < 10`. -/
def decChar (m : Nat) : Char := Char.ofNat (48 + m)

/-- Accumulator form of decimal rendering (most significant digit first). -/
def natDecAux : Nat → List Char → List Char
  | 0, acc => acc
  | n + 1, acc => natDecAux ((n + 1) / 10) (decChar ((n + 1) % 10) :: acc)
decreasing_by exact Nat.div_lt_self (Nat.succ_pos n) (by norm_num)

/-- Decimal digit characters of a natural number. -/
def natDecChars (n : Nat) : List Char := if n = 0 then ['0'] else natDecAux n []

/-- Decimal rendering of a natural number. -/
def natDec (n : Nat) : String := ⟨natDecChars n⟩

/-- `"%d" % i`: decimal rendering of a Python int. -/
def intDec (i : Int) : String :=
  if i < 0 then ⟨'-' :: natDecChars i.natAbs⟩ else ⟨natDecChars i.natAbs⟩

/-- Round a rational to an integer, ties to even (C `printf` rounding). -/
def roundHalfEven (q : Rat) : Int :=
  let f := ⌊q⌋
  let frac := q - (f : Rat)
  if frac < 1 / 2 then f
  else if frac > 1 / 2 then f + 1
  else if f % 2 = 0 then f else f + 1

/-- Left-pad a string with zeros to the given length. -/
def padZeros (s : String) (len : Nat) : String :=
  ⟨List.replicate (len - s.length) '0' ++ s.data⟩

/-- `"%f" % x`: fixed-point rendering with six fractional digits. -/
def formatFixed6 (q : Rat) : String :=
  let n := (roundHalfEven (q * 1000000)).natAbs
  let sign := if q < 0 then "-" else ""
  sign ++ natDec (n / 1000000) ++ "." ++ padZeros (natDec (n % 1000000)) 6

/-- Escape one character for Python `repr` of a str. -/
def pyReprEscape (quote : Char) (c : Char) : String :=
  if c = '\\' then "\\\\"
  else if c = quote then "\\" ++ quote.toString
  else if c = '\n' then "\\n"
  else if c = '\r' then "\\r"
  else if c = '\t' then "\\t"
  else c.toString

/-- Python 2 `"%r" % s` for a str `s`: the text wrapped in quotes (single
quotes unless the text holds a single quote and no double quote), with
backslash escapes.  Non-printable `\xHH` escaping is not modelled; no
claim feeds non-printable text. -/
def pyRepr (s : String) : String :=
  let sq := Char.ofNat 39
  let dq := Char.ofNat 34
  let q := if strContainsChar s sq && !(strContainsChar s dq) then dq else sq
  q.toString ++ String.join (s.data.map (pyReprEscape q)) ++ q.toString

/-- `get_value_as_str` from `MysqlMonitor.gather_sample`: `%d` for ints,
`%f` for floats, `%r` otherwise (strings and None). -/
def get_value_as_str (value : Scalar) : String :=
  match value with
  | .int n => intDec n
  | .float q => formatFixed6 q
  | .str s => pyRepr s
  | .pynone => "None"

/-- Python `str.lower()` (ASCII case folding, the only case the data uses). -/
def pyLower (s : String) : String := ⟨s.data.map Char.toLower⟩

/-! ## Session manager (`MysqlDB._query`, `_reconnect`, version handling) -/

/-- The session state the embedded `_query` can change: how many times
`_reconnect` (one `_close` plus one `_connect`) has been invoked. -/
structure DBState where
  reconnectCount : Nat
  deriving DecidableEq, Repr

/-- `MysqlDB._reconnect`: closes and reopens the session, counted once. -/
def dbReconnect (st : DBState) : DBState :=
  { st with reconnectCount := st.reconnectCount + 1 }

/-- What the external driver did with `cursor.execute(sql)`: either it
succeeded and `fetchall` yields these rows, or it raised
`pymysql.OperationalError(errcode, msg)`. -/
inductive ExecOutcome (Row : Type) where
  | ok (rows : List Row)
  | operationalError (errcode : Int) (msg : String)
  deriving DecidableEq, Repr

/-- `MysqlDB._query`: on error code 2006 ("MySQL server has gone away")
reconnect once and return `None`; on any other operational error raise
(the source's `"Database error -- " + errcode` concatenates str and int,
so the raise that actually propagates is a `TypeError`); otherwise return
the fetched rows. -/
def dbQuery (Row : Type) (st : DBState) (outcome : ExecOutcome Row) :
    DBState × Except PyErr (Option (List Row)) :=
  match outcome with
  | .ok rows => (st, .ok (some rows))
  | .operationalError errcode _ =>
    if errcode ≠ 2006 then (st, .error .typeError)
    else (dbReconnect st, .ok none)

/-- `ServerIdentity`: version string plus the first two numeric components. -/
structure ServerIdentity where
  versionString : String
  majorVersion : Int
  mediumVersion : Int
  deriving DecidableEq, Repr

/-- Split a character list at every occurrence of `c`, keeping empty
groups — the semantics of Python `str.split(".")`. -/
def splitOnChar (c : Char) : List Char → List (List Char)
  | [] => [[]]
  | x :: rest =>
    let r := splitOnChar c rest
    if x = c then [] :: r
    else
      match r with
      | [] => [[x]]
      | g :: gs => (x :: g) :: gs

/-- Python `s.split(".")`. -/
def pySplitDot (s : String) : List String :=
  (splitOnChar '.' s.data).map (fun g => ⟨g⟩)

/-- Python `s.split("\n")`. -/
def pySplitLines (s : String) : List String :=
  (splitOnChar '\n' s.data).map (fun g => ⟨g⟩)

/-- The version-parsing core of `MysqlDB._gather_db_information`: split the
version string on `"."`, coerce the first two components with `int(...)`;
a `ValueError`/`IndexError` degrades to `(0, 0, "unknown")`. -/
def parseVersion (versionString : String) : ServerIdentity :=
  let parts := pySplitDot versionString
  match parts.get? 0 >>= pyInt?, parts.get? 1 >>= pyInt? with
  | some major, some medium =>
    { versionString := versionString, majorVersion := major, mediumVersion := medium }
  | _, _ => { versionString := "unknown", majorVersion := 0, mediumVersion := 0 }

/-- `MysqlDB._gather_db_information` over the result of
`SELECT VERSION()`: a `None`/empty result means the version string is
`"unknown"`; an empty first row hits the `IndexError` handler. -/
def gatherDbInformation (queryResult : Option (List (List String))) : ServerIdentity :=
  match queryResult with
  | none => parseVersion "unknown"
  | some [] => parseVersion "unknown"
  | some (row :: _) =>
    match row.head? with
    | none => { versionString := "unknown", majorVersion := 0, mediumVersion := 0 }
    | some v => parseVersion v

/-- `MysqlDB._isShowGlobalStatusSafe`. -/
def isShowGlobalStatusSafe (major medium : Int) : Bool :=
  major > 5 || (major == 5 && medium >= 1)

/-! ## Derived statistics (`MysqlDB._derived_stat_*`)

Metric maps hold the numeric counter values the calculators read; the
values are modelled as exact rationals (Python ints embed exactly, and no
guard or error path below depends on float rounding).  Missing keys raise
`KeyError` exactly as Python subscripting does. -/

/-- A metric map: field name to numeric value, as built in
`MysqlMonitor.gather_sample` from collector records. -/
abbrev MetricMap := List (String × Rat)

/-- Python `m[key]`: the value, or a raised `KeyError`. -/
def mapGet (m : MetricMap) (key : String) : Except PyErr Rat :=
  match m.lookup key with
  | some v => .ok v
  | none => .error (.keyError key)

/-- Python float division: raises `ZeroDivisionError` on a zero divisor. -/
def pyDiv (a b : Rat) : Except PyErr Rat :=
  if b = 0 then .error .zeroDivisionError else .ok (a / b)

/-- `_derived_stat_slow_query_percentage`. -/
def derived_stat_slow_query_percentage (globalVars globalStatusMap : MetricMap) :
    Except PyErr Rat := do
  let questions ← mapGet globalStatusMap "global.questions"
  if questions > 0 then
    let slow ← mapGet globalStatusMap "global.slow_queries"
    let r ← pyDiv slow questions
    pure (100 * r)
  else
    pure 0

/-- `_derived_stat_connections_used_percentage`: divides with no guard on
the divisor, then clamps the result to a ceiling of 100. -/
def derived_stat_connections_used_percentage (globalVars globalStatusMap : MetricMap) :
    Except PyErr Rat := do
  let used ← mapGet globalStatusMap "global.max_used_connections"
  let maxConn ← mapGet globalVars "vars.max_connections"
  let r ← pyDiv used maxConn
  let pct := 100 * r
  pure (if pct > 100 then 100 else pct)

/-- `_derived_stat_aborted_clients_percentage`. -/
def derived_stat_aborted_clients_percentage (globalVars globalStatusMap : MetricMap) :
    Except PyErr Rat := do
  let conns ← mapGet globalStatusMap "global.connections"
  if conns > 0 then
    let aborted ← mapGet globalStatusMap "global.aborted_clients"
    let r ← pyDiv aborted conns
    pure (100 * r)
  else
    pure 0

/-- `_derived_stat_aborted_connections_percentage`. -/
def derived_stat_aborted_connections_percentage (globalVars globalStatusMap : MetricMap) :
    Except PyErr Rat := do
  let conns ← mapGet globalStatusMap "global.connections"
  if conns > 0 then
    let aborted ← mapGet globalStatusMap "global.aborted_connects"
    let r ← pyDiv aborted conns
    pure (100 * r)
  else
    pure 0

/-- `_derived_stat_read_write_percentage`, the shared read/write helper. -/
def derived_stat_read_write_percentage (globalVars globalStatusMap : MetricMap)
    (doRead : Bool) : Except PyErr Rat := do
  let reads ← mapGet globalStatusMap "global.com_select"
  let del ← mapGet globalStatusMap "global.com_delete"
  let ins ← mapGet globalStatusMap "global.com_insert"
  let upd ← mapGet globalStatusMap "global.com_update"
  let rep ← mapGet globalStatusMap "global.com_replace"
  let writes := del + ins + upd + rep
  let top := if doRead then reads else writes
  if reads + writes > 0 then
    let r ← pyDiv top (writes + reads)
    pure (100 * r)
  else
    pure 0

/-- `_derived_stat_write_percentage`. -/
def derived_stat_write_percentage (globalVars globalStatusMap : MetricMap) :
    Except PyErr Rat :=
  derived_stat_read_write_percentage globalVars globalStatusMap false

/-- `_derived_stat_read_percentage`. -/
def derived_stat_read_percentage (globalVars globalStatusMap : MetricMap) :
    Except PyErr Rat :=
  derived_stat_read_write_percentage globalVars globalStatusMap true

/-- `_derived_stat_query_cache_efficiency`. -/
def derived_stat_query_cache_efficiency (globalVars globalStatusMap : MetricMap) :
    Except PyErr Rat := do
  let selects ← mapGet globalStatusMap "global.com_select"
  let hits ← mapGet globalStatusMap "global.qcache_hits"
  if selects + hits > 0 then
    let r ← pyDiv hits (selects + hits)
    pure (100 * r)
  else
    pure 0

/-- `_derived_stat_joins_without_indexes`: a raw sum, no division. -/
def derived_stat_joins_without_indexes (globalVars globalStatusMap : MetricMap) :
    Except PyErr Rat := do
  let a ← mapGet globalStatusMap "global.select_range_check"
  let b ← mapGet globalStatusMap "global.select_full_join"
  pure (a + b)

/-- `_derived_stat_table_cache_hit_rate`: defaults to 100 on a zero
`opened_tables` counter. -/
def derived_stat_table_cache_hit_rate (globalVars globalStatusMap : MetricMap) :
    Except PyErr Rat := do
  let opened ← mapGet globalStatusMap "global.opened_tables"
  if opened > 0 then
    let openT ← mapGet globalStatusMap "global.open_tables"
    let r ← pyDiv openT opened
    pure (100 * r)
  else
    pure 100

/-- `_derived_stat_open_file_percentage`. -/
def derived_stat_open_file_percentage (globalVars globalStatusMap : MetricMap) :
    Except PyErr Rat := do
  let lim ← mapGet globalVars "vars.open_files_limit"
  if lim > 0 then
    let files ← mapGet globalStatusMap "global.open_files"
    let r ← pyDiv files lim
    pure (100 * r)
  else
    pure 0

/-- `_derived_stat_immediate_table_lock_percentage`: defaults to 100 on a
zero `table_locks_waited` counter; the division's denominator is
`waited + immediate`. -/
def derived_stat_immediate_table_lock_percentage (globalVars globalStatusMap : MetricMap) :
    Except PyErr Rat := do
  let waited ← mapGet globalStatusMap "global.table_locks_waited"
  if waited > 0 then
    let immediate ← mapGet globalStatusMap "global.table_locks_immediate"
    let r ← pyDiv immediate (waited + immediate)
    pure (100 * r)
  else
    pure 100

/-- `_derived_stat_thread_cache_hit_rate`: `100 - created / connections`
(note: the quotient is not multiplied by 100), defaulting to 100 on a zero
`connections` counter. -/
def derived_stat_thread_cache_hit_rate (globalVars globalStatusMap : MetricMap) :
    Except PyErr Rat := do
  let conns ← mapGet globalStatusMap "global.connections"
  if conns > 0 then
    let created ← mapGet globalStatusMap "global.threads_created"
    let r ← pyDiv created conns
    pure (100 - r)
  else
    pure 100

/-- `_derived_stat_tmp_disk_table_percentage`. -/
def derived_stat_tmp_disk_table_percentage (globalVars globalStatusMap : MetricMap) :
    Except PyErr Rat := do
  let created ← mapGet globalStatusMap "global.created_tmp_tables"
  if created > 0 then
    let disk ← mapGet globalStatusMap "global.created_tmp_disk_tables"
    let r ← pyDiv disk created
    pure (100 * r)
  else
    pure 0

/-- The `stats` list of `gather_derived_stats`, paired with the function
each name dispatches to.  The source resolves `"_derived_stat_" + name`
by reflection (`hasattr`/`getattr`); every listed name resolves, so the
dispatch is modelled by this explicit table in the same order. -/
def derivedStatsTable : List (String × (MetricMap → MetricMap → Except PyErr Rat)) :=
  [("slow_query_percentage", derived_stat_slow_query_percentage),
   ("connections_used_percentage", derived_stat_connections_used_percentage),
   ("aborted_connections_percentage", derived_stat_aborted_connections_percentage),
   ("aborted_clients_percentage", derived_stat_aborted_clients_percentage),
   ("read_percentage", derived_stat_read_percentage),
   ("write_percentage", derived_stat_write_percentage),
   ("query_cache_efficiency", derived_stat_query_cache_efficiency),
   ("joins_without_indexes", derived_stat_joins_without_indexes),
   ("table_cache_hit_rate", derived_stat_table_cache_hit_rate),
   ("open_file_percentage", derived_stat_open_file_percentage),
   ("immediate_table_lock_percentage", derived_stat_immediate_table_lock_percentage),
   ("thread_cache_hit_rate", derived_stat_thread_cache_hit_rate),
   ("tmp_disk_table_percentage", derived_stat_tmp_disk_table_percentage)]

/-- `MysqlDB.gather_derived_stats`: `None` when either map is empty, else
one `derived.*` record per stat in order.  An exception raised by any
calculator propagates out of the loop. -/
def gather_derived_stats (globalVars globalStatusMap : MetricMap) :
    Except PyErr (Option (List MetricRecord)) :=
  if globalVars.isEmpty || globalStatusMap.isEmpty then .ok none
  else do
    let recs ← derivedStatsTable.mapM (fun p => do
      let v ← p.2 globalVars globalStatusMap
      pure (MetricRecord.mk ("derived." ++ p.1) (Scalar.float v) []))
    pure (some recs)

/-! ## Tabular collectors (`gather_global_status`, `gather_global_variables`,
`gather_process_information`, `gather_cluster_status`)

Each collector receives the value `_query` produced for its SQL statement:
`none` is the no-result signal `_query` returns after a gone-away
reconnect, `some rows` is a fetched row list. -/

/-- `__coms_to_report__`. -/
def comsToReport : List String :=
  ["com_select", "com_update", "com_delete", "com_replace", "com_insert"]

/-- `MysqlDB.gather_global_status`: `None` when the snapshot is unsafe;
otherwise iterate the query result (iterating the `None` no-result signal
raises a `TypeError`), keep non-`com_` counters plus the whitelisted five,
and coerce each value. -/
def gather_global_status (major medium : Int)
    (queryResult : Option (List (String × String))) :
    Except PyErr (Option (List MetricRecord)) :=
  if !isShowGlobalStatusSafe major medium then .ok none
  else
    match queryResult with
    | none => .error .typeError
    | some rows => .ok (some (rows.filterMap (fun mv =>
        let metricName := pyLower mv.1
        if !(metricName.startsWith "com_") || comsToReport.contains metricName then
          some (MetricRecord.mk ("global." ++ metricName) (parse_value mv.2) [])
        else none)))

/-- `MysqlDB.gather_global_variables`: iterate the query result (iterating
the `None` no-result signal raises a `TypeError`) and keep only
`max_connections` and `open_files_limit`. -/
def gather_global_variables (queryResult : Option (List (String × String))) :
    Except PyErr (Option (List MetricRecord)) :=
  match queryResult with
  | none => .error .typeError
  | some rows => .ok (some (rows.filterMap (fun mv =>
      let metricName := pyLower mv.1
      if metricName = "max_connections" || metricName = "open_files_limit" then
        some (MetricRecord.mk ("vars." ++ metricName) (parse_value mv.2) [])
      else none)))

/-- A column value as delivered by the driver: integer, text or SQL NULL. -/
inductive SqlVal where
  | vint (n : Int)
  | vstr (s : String)
  | vnull
  deriving DecidableEq, Repr

/-- A driver value stored unchanged into a record. -/
def sqlToScalar : SqlVal → Scalar
  | .vint n => .int n
  | .vstr s => .str s
  | .vnull => .pynone

/-- Python truthiness of a column value (`if master_host`). -/
def sqlTruthy : SqlVal → Bool
  | .vint n => n ≠ 0
  | .vstr s => s ≠ ""
  | .vnull => false

/-- `isyes(s)`: `s.lower() == "yes"` as 1/0; calling `.lower()` on a
non-string raises `AttributeError`. -/
def isyes : SqlVal → Except PyErr Int
  | .vstr s => .ok (if pyLower s = "yes" then 1 else 0)
  | _ => .error .attributeError

/-- A `SHOW SLAVE STATUS` row after `_row_to_dict` (column names already
lower-cased by that helper). -/
abbrev SlaveRow := List (String × SqlVal)

/-- Python `d[key]` on a row dict. -/
def rowGet (row : SlaveRow) (key : String) : Except PyErr SqlVal :=
  match row.lookup key with
  | some v => .ok v
  | none => .error (.keyError key)

/-- `MysqlDB.gather_cluster_status`: `None` for a `None`/empty query result
or a falsy `master_host`; otherwise the lag record only when
`seconds_behind_master` is a genuine integer, then bytes-executed,
bytes-relayed and the two `isyes` thread flags.  (The source's
`master_host is not "None"` identity test is always true for a
driver-constructed string, so only truthiness decides.) -/
def gather_cluster_status (queryResult : Option (List SlaveRow)) :
    Except PyErr (Option (List MetricRecord)) :=
  match queryResult with
  | none => .ok none
  | some [] => .ok none
  | some (row :: _) =>
    let masterHost := row.lookup "master_host"
    if (match masterHost with
        | some v => sqlTruthy v
        | none => false) then do
      let sbmRecs : List MetricRecord :=
        match row.lookup "seconds_behind_master" with
        | some (.vint n) => [MetricRecord.mk "slave.seconds_behind_master" (.int n) []]
        | _ => []
      let ex ← rowGet row "exec_master_log_pos"
      let rd ← rowGet row "read_master_log_pos"
      let ioFlag ← isyes (← rowGet row "slave_io_running")
      let sqlFlag ← isyes (← rowGet row "slave_sql_running")
      pure (some (sbmRecs ++
        [MetricRecord.mk "slave.bytes_executed" (sqlToScalar ex) [],
         MetricRecord.mk "slave.bytes_relayed" (sqlToScalar rd) [],
         MetricRecord.mk "slave.thread_io_running" (.int ioFlag) [],
         MetricRecord.mk "slave.thread_sql_running" (.int sqlFlag) []]))
    else
      pure none

/-- The first seven columns of a `SHOW PROCESSLIST` row, as unpacked by
`id, user, host, db_, cmd, time, state = row[:7]`. -/
structure ProcessRow where
  pid : SqlVal
  user : SqlVal
  host : SqlVal
  db : SqlVal
  cmd : SqlVal
  time : SqlVal
  state : SqlVal
  deriving DecidableEq, Repr

/-- `states[cmd] = states.get(cmd, 0) + 1`: the counting dict, modelled in
first-insertion order.  (CPython 2 leaves dict iteration order
unspecified; no claim depends on the order, only on the multiset of
entries.) -/
def bumpState (states : List (SqlVal × Nat)) (cmd : SqlVal) : List (SqlVal × Nat) :=
  if states.any (fun p => p.1 = cmd) then
    states.map (fun p => if p.1 = cmd then (p.1, p.2 + 1) else p)
  else
    states ++ [(cmd, 1)]

/-- `state.lower().replace(" ", "_")` applied when emitting a census
record. -/
def normalizeState (s : String) : String :=
  ⟨s.data.map (fun c => if Char.toLower c = ' ' then '_' else Char.toLower c)⟩

/-- `MysqlDB.gather_process_information`: iterating the `None` no-result
signal raises a `TypeError`; rows are counted by their raw `cmd` column
and the lower-case/underscore normalization happens only at emission (a
non-string `cmd` raises `AttributeError` there); an empty record list
becomes `None`. -/
def gather_process_information (queryResult : Option (List ProcessRow)) :
    Except PyErr (Option (List MetricRecord)) :=
  match queryResult with
  | none => .error .typeError
  | some rows => do
    let states := rows.foldl (fun st row => bumpState st row.cmd) []
    let recs ← states.mapM (fun p => do
      match p.1 with
      | .vstr s =>
        pure (MetricRecord.mk ("process." ++ normalizeState s) (.int (p.2 : Int)) [])
      | _ => (.error .attributeError : Except PyErr MetricRecord))
    pure (if recs.isEmpty then none else some recs)

/-! ## Pattern extractor (`MysqlDB._parse_data`)

The Python regex engine is an external collaborator; a compiled rule is
therefore modelled as the match function `re.match(regex, line)` induces:
`none` when the line does not match, otherwise the capture-group lookup
`m.group`. -/

/-- One entry of a rule's `"fields"` list. -/
structure FieldSpec where
  label : String
  group : Nat
  extraFields : List (String × String) := []

/-- One extraction rule: the induced match function of its `"regex"` and
its `"fields"`. -/
structure ExtractionRule where
  regexMatch : String → Option (Nat → String)
  fields : List FieldSpec

/-- `MysqlDB._parse_data`: for each line of `data`, for each rule in order,
a match appends one record per declared field.  The source ends the
matched branch with `continue`, which as the last statement of the inner
rule loop is a no-op, so later rules are still evaluated against the same
line — every matching rule contributes records. -/
def parse_data (data : String) (fields : List ExtractionRule) : List MetricRecord :=
  (pySplitLines data).flatMap (fun line =>
    fields.flatMap (fun search =>
      match search.regexMatch line with
      | some m => search.fields.map (fun f =>
          MetricRecord.mk f.label (parse_value (m f.group)) f.extraFields)
      | none => []))

/-- A rule whose pattern matches exactly the line "needle", capturing "1"
in group 1 (the induced match function of such a regex). -/
def ruleOne : ExtractionRule :=
  { regexMatch := fun line => if line = "needle" then some (fun _ => "1") else none,
    fields := [{ label := "a", group := 1 }] }

/-- A second rule whose pattern also matches the line "needle", capturing
"2" in group 1. -/
def ruleTwo : ExtractionRule :=
  { regexMatch := fun line => if line = "needle" then some (fun _ => "2") else none,
    fields := [{ label := "b", group := 1 }] }

/-! ## Binary64 refinement of the read/write share

Python floats are IEEE binary64; `roundRatDouble` rounds an exact rational
to the nearest representable double (ties to even).  Overflow and
subnormals are outside the range any claim exercises and are not
modelled. -/

/-- `2 ^ k` as a rational, for an integer exponent. -/
def pow2Rat (k : Int) : Rat :=
  if k ≥ 0 then ((2 : Rat) ^ k.toNat) else 1 / ((2 : Rat) ^ (-k).toNat)

/-- Fuel-driven base-2 logarithm (structural recursion, so that concrete
instances reduce inside the kernel). -/
def log2Fuel : Nat → Nat → Nat
  | 0, _ => 0
  | fuel + 1, n => if n ≥ 2 then log2Fuel fuel (n / 2) + 1 else 0

/-- `⌊log2 n⌋` for `n ≥ 1` (0 on smaller input). -/
def natLog2 (n : Nat) : Nat := log2Fuel n n

/-- `⌊log2 q⌋` for a positive rational. -/
def ratLog2 (q : Rat) : Int :=
  let a := natLog2 q.num.natAbs
  let b := natLog2 q.den
  let k : Int := (a : Int) - (b : Int)
  if q < pow2Rat k then k - 1 else k

/-- Round a rational to the nearest IEEE binary64 value (53-bit
significand, ties to even), as an exact rational. -/
def roundRatDouble (q : Rat) : Rat :=
  if q = 0 then 0
  else
    let s : Rat := if q < 0 then -1 else 1
    let aq := |q|
    let e := ratLog2 aq
    let scale := e - 52
    let m := aq / pow2Rat scale
    s * ((roundHalfEven m : Int) : Rat) * pow2Rat scale

/-- Python float division of doubles: the rounded quotient. -/
def fpDiv (a b : Rat) : Except PyErr Rat :=
  if b = 0 then .error .zeroDivisionError else .ok (roundRatDouble (a / b))

/-- Python float multiplication of doubles: the rounded product. -/
def fpMul (a b : Rat) : Rat := roundRatDouble (a * b)

/-- `_derived_stat_read_write_percentage` with its float arithmetic made
explicit: `100.0 * (float(top) / float(writes + reads))` evaluated in
binary64.  This is the rounding-faithful refinement of
`derived_stat_read_write_percentage`. -/
def derived_stat_read_write_percentage_fp (globalVars globalStatusMap : MetricMap)
    (doRead : Bool) : Except PyErr Rat := do
  let reads ← mapGet globalStatusMap "global.com_select"
  let del ← mapGet globalStatusMap "global.com_delete"
  let ins ← mapGet globalStatusMap "global.com_insert"
  let upd ← mapGet globalStatusMap "global.com_update"
  let rep ← mapGet globalStatusMap "global.com_replace"
  let writes := del + ins + upd + rep
  let top := if doRead then reads else writes
  if reads + writes > 0 then
    let r ← fpDiv (roundRatDouble top) (roundRatDouble (writes + reads))
    pure (fpMul 100 r)
  else
    pure 0

/-- `_derived_stat_read_percentage` in binary64. -/
def derived_stat_read_percentage_fp (globalVars globalStatusMap : MetricMap) :
    Except PyErr Rat :=
  derived_stat_read_write_percentage_fp globalVars globalStatusMap true

/-- `_derived_stat_write_percentage` in binary64. -/
def derived_stat_write_percentage_fp (globalVars globalStatusMap : MetricMap) :
    Except PyErr Rat :=
  derived_stat_read_write_percentage_fp globalVars globalStatusMap false

/-! ## Theorems -/

theorem exceptBind_error {ε α β : Type} (e : ε) (f : α → Except ε β) :
    (Except.error e >>= f) = Except.error e := rfl

theorem exceptBind_ok {ε α β : Type} (a : α) (f : α → Except ε β) :
    (Except.ok a >>= f) = f a := rfl

theorem mapGet_eq_ok {m : MetricMap} {k : String} {v : Rat}
    (h : m.lookup k = some v) : mapGet m k = .ok v := by
  unfold mapGet
  rw [h]

theorem mapGet_eq_err {m : MetricMap} {k : String}
    (h : m.lookup k = none) : mapGet m k = .error (.keyError k) := by
  unfold mapGet
  rw [h]

/-- Evaluation of a stat of the common shape — guard counter from one key,
then a division whose divisor is nonzero whenever the guard passed (given
the divisor hypothesis).  Instantiated per stat below. -/
theorem guarded_stat_ne_zeroDiv (m1 m2 : MetricMap) (k1 k2 : String) (dflt : Rat)
    (den : Rat → Rat → Rat) (post : Rat → Rat)
    (hden : ∀ a b, m2.lookup k2 = some b → a > 0 → den a b ≠ 0) :
    (do
      let a ← mapGet m1 k1
      if a > 0 then
        let b ← mapGet m2 k2
        let r ← pyDiv b (den a b)
        pure (post r)
      else
        pure dflt) ≠ (.error PyErr.zeroDivisionError : Except PyErr Rat) := by
  cases h1 : m1.lookup k1 with
  | none => simp [mapGet_eq_err h1, exceptBind_error]
  | some a =>
    simp only [mapGet_eq_ok h1, exceptBind_ok]
    split
    case isTrue hpos =>
      cases h2 : m2.lookup k2 with
      | none => simp [mapGet_eq_err h2, exceptBind_error]
      | some b =>
        simp [mapGet_eq_ok h2, exceptBind_ok, pyDiv, hden a b h2 hpos]
    case isFalse hneg => simp [pure, Except.pure]

theorem slow_query_ne_zeroDiv (v s : MetricMap) :
    derived_stat_slow_query_percentage v s ≠ .error .zeroDivisionError := by
  unfold derived_stat_slow_query_percentage
  exact guarded_stat_ne_zeroDiv s s "global.questions" "global.slow_queries" 0
    (fun a _ => a) (fun r => 100 * r) (fun a _ _ ha => ne_of_gt ha)

theorem aborted_clients_ne_zeroDiv (v s : MetricMap) :
    derived_stat_aborted_clients_percentage v s ≠ .error .zeroDivisionError := by
  unfold derived_stat_aborted_clients_percentage
  exact guarded_stat_ne_zeroDiv s s "global.connections" "global.aborted_clients" 0
    (fun a _ => a) (fun r => 100 * r) (fun a _ _ ha => ne_of_gt ha)

theorem aborted_connections_ne_zeroDiv (v s : MetricMap) :
    derived_stat_aborted_connections_percentage v s ≠ .error .zeroDivisionError := by
  unfold derived_stat_aborted_connections_percentage
  exact guarded_stat_ne_zeroDiv s s "global.connections" "global.aborted_connects" 0
    (fun a _ => a) (fun r => 100 * r) (fun a _ _ ha => ne_of_gt ha)

theorem table_cache_ne_zeroDiv (v s : MetricMap) :
    derived_stat_table_cache_hit_rate v s ≠ .error .zeroDivisionError := by
  unfold derived_stat_table_cache_hit_rate
  exact guarded_stat_ne_zeroDiv s s "global.opened_tables" "global.open_tables" 100
    (fun a _ => a) (fun r => 100 * r) (fun a _ _ ha => ne_of_gt ha)

theorem open_file_ne_zeroDiv (v s : MetricMap) :
    derived_stat_open_file_percentage v s ≠ .error .zeroDivisionError := by
  unfold derived_stat_open_file_percentage
  exact guarded_stat_ne_zeroDiv v s "vars.open_files_limit" "global.open_files" 0
    (fun a _ => a) (fun r => 100 * r) (fun a _ _ ha => ne_of_gt ha)

theorem thread_cache_ne_zeroDiv (v s : MetricMap) :
    derived_stat_thread_cache_hit_rate v s ≠ .error .zeroDivisionError := by
  unfold derived_stat_thread_cache_hit_rate
  exact guarded_stat_ne_zeroDiv s s "global.connections" "global.threads_created" 100
    (fun a _ => a) (fun r => 100 - r) (fun a _ _ ha => ne_of_gt ha)

theorem tmp_disk_ne_zeroDiv (v s : MetricMap) :
    derived_stat_tmp_disk_table_percentage v s ≠ .error .zeroDivisionError := by
  unfold derived_stat_tmp_disk_table_percentage
  exact guarded_stat_ne_zeroDiv s s "global.created_tmp_tables"
    "global.created_tmp_disk_tables" 0
    (fun a _ => a) (fun r => 100 * r) (fun a _ _ ha => ne_of_gt ha)

theorem immediate_table_lock_ne_zeroDiv (v s : MetricMap)
    (himm : ∀ x, s.lookup "global.table_locks_immediate" = some x → 0 ≤ x) :
    derived_stat_immediate_table_lock_percentage v s ≠ .error .zeroDivisionError := by
  unfold derived_stat_immediate_table_lock_percentage
  exact guarded_stat_ne_zeroDiv s s "global.table_locks_waited"
    "global.table_locks_immediate" 100
    (fun a b => a + b) (fun r => 100 * r)
    (fun a b hb ha => by have := himm b hb; positivity)

theorem query_cache_ne_zeroDiv (v s : MetricMap) :
    derived_stat_query_cache_efficiency v s ≠ .error .zeroDivisionError := by
  unfold derived_stat_query_cache_efficiency
  cases h1 : s.lookup "global.com_select" with
  | none => simp [mapGet_eq_err h1, exceptBind_error]
  | some a =>
    simp only [mapGet_eq_ok h1, exceptBind_ok]
    cases h2 : s.lookup "global.qcache_hits" with
    | none => simp [mapGet_eq_err h2, exceptBind_error]
    | some b =>
      simp only [mapGet_eq_ok h2, exceptBind_ok]
      split
      case isTrue hpos => simp [pyDiv, ne_of_gt hpos, exceptBind_ok]
      case isFalse hneg => simp [pure, Except.pure]

theorem joins_ne_zeroDiv (v s : MetricMap) :
    derived_stat_joins_without_indexes v s ≠ .error .zeroDivisionError := by
  unfold derived_stat_joins_without_indexes
  cases h1 : s.lookup "global.select_range_check" with
  | none => simp [mapGet_eq_err h1, exceptBind_error]
  | some a =>
    simp only [mapGet_eq_ok h1, exceptBind_ok]
    cases h2 : s.lookup "global.select_full_join" with
    | none => simp [mapGet_eq_err h2, exceptBind_error]
    | some b => simp [mapGet_eq_ok h2, exceptBind_ok, pure, Except.pure]

theorem read_write_ne_zeroDiv (v s : MetricMap) (doRead : Bool) :
    derived_stat_read_write_percentage v s doRead ≠ .error .zeroDivisionError := by
  unfold derived_stat_read_write_percentage
  cases h1 : s.lookup "global.com_select" with
  | none => simp [mapGet_eq_err h1, exceptBind_error]
  | some reads =>
  simp only [mapGet_eq_ok h1, exceptBind_ok]
  cases h2 : s.lookup "global.com_delete" with
  | none => simp [mapGet_eq_err h2, exceptBind_error]
  | some del =>
  simp only [mapGet_eq_ok h2, exceptBind_ok]
  cases h3 : s.lookup "global.com_insert" with
  | none => simp [mapGet_eq_err h3, exceptBind_error]
  | some ins =>
  simp only [mapGet_eq_ok h3, exceptBind_ok]
  cases h4 : s.lookup "global.com_update" with
  | none => simp [mapGet_eq_err h4, exceptBind_error]
  | some upd =>
  simp only [mapGet_eq_ok h4, exceptBind_ok]
  cases h5 : s.lookup "global.com_replace" with
  | none => simp [mapGet_eq_err h5, exceptBind_error]
  | some rep =>
  simp only [mapGet_eq_ok h5, exceptBind_ok]
  split
  case isTrue hpos =>
    have hden : del + ins + upd + rep + reads ≠ 0 := by
      intro h0
      rw [add_comm reads (del + ins + upd + rep)] at hpos
      exact absurd h0 (ne_of_gt hpos)
    simp [pyDiv, hden, exceptBind_ok]
  case isFalse hneg => simp [pure, Except.pure]

/-- C1 counterexample: the table-cache hit rate returns the non-zero
default 100.0 when its denominator counter `opened_tables` is zero, and
the connections-used ratio performs no denominator check at all — with
`vars.max_connections = 0` it raises `ZeroDivisionError`. -/
theorem c1_counterexample_nonzero_default_and_unguarded_div :
    derived_stat_table_cache_hit_rate []
        [("global.opened_tables", (0 : Rat)), ("global.open_tables", (5 : Rat))] =
      .ok 100
    ∧ (100 : Rat) ≠ 0
    ∧ derived_stat_connections_used_percentage [("vars.max_connections", (0 : Rat))]
        [("global.max_used_connections", (5 : Rat))] =
      .error .zeroDivisionError := by
  refine ⟨by decide, by decide, by decide⟩

/-- C1 (amended): every derived-stat function except the connections-used
ratio guards its division so it cannot raise `ZeroDivisionError` (for the
immediate-table-lock share this additionally needs the
`table_locks_immediate` counter to be non-negative); on a zero guard
counter, slow-query, aborted-clients, aborted-connections, open-file and
tmp-disk-table default to 0.0 (as do query-cache, read and write on zero
sums), while table-cache, immediate-table-lock and thread-cache default to
100.0; the connections-used ratio divides unconditionally — raising
`ZeroDivisionError` when `vars.max_connections` is 0 — and clamps its
result to a ceiling of 100.0. -/
theorem c1_derived_stats_division_guards (globalVars globalStatusMap : MetricMap)
    (himm : ∀ x, globalStatusMap.lookup "global.table_locks_immediate" = some x → 0 ≤ x) :
    (∀ p ∈ derivedStatsTable, p.1 ≠ "connections_used_percentage" →
      p.2 globalVars globalStatusMap ≠ .error PyErr.zeroDivisionError)
    ∧ (globalStatusMap.lookup "global.questions" = some 0 →
      derived_stat_slow_query_percentage globalVars globalStatusMap = .ok 0)
    ∧ (globalStatusMap.lookup "global.connections" = some 0 →
      derived_stat_aborted_clients_percentage globalVars globalStatusMap = .ok 0
      ∧ derived_stat_aborted_connections_percentage globalVars globalStatusMap = .ok 0
      ∧ derived_stat_thread_cache_hit_rate globalVars globalStatusMap = .ok 100)
    ∧ (globalStatusMap.lookup "global.opened_tables" = some 0 →
      derived_stat_table_cache_hit_rate globalVars globalStatusMap = .ok 100)
    ∧ (globalStatusMap.lookup "global.table_locks_waited" = some 0 →
      derived_stat_immediate_table_lock_percentage globalVars globalStatusMap = .ok 100)
    ∧ (globalVars.lookup "vars.open_files_limit" = some 0 →
      derived_stat_open_file_percentage globalVars globalStatusMap = .ok 0)
    ∧ (globalStatusMap.lookup "global.created_tmp_tables" = some 0 →
      derived_stat_tmp_disk_table_percentage globalVars globalStatusMap = .ok 0)
    ∧ (globalStatusMap.lookup "global.com_select" = some 0 →
      globalStatusMap.lookup "global.qcache_hits" = some 0 →
      derived_stat_query_cache_efficiency globalVars globalStatusMap = .ok 0)
    ∧ (∀ used mc, globalStatusMap.lookup "global.max_used_connections" = some used →
      globalVars.lookup "vars.max_connections" = some mc →
      (mc = 0 →
        derived_stat_connections_used_percentage globalVars globalStatusMap =
          .error PyErr.zeroDivisionError)
      ∧ (mc ≠ 0 →
        ∃ pct, derived_stat_connections_used_percentage globalVars globalStatusMap =
          .ok pct ∧ pct ≤ 100)) := by
  refine ⟨?_, ?_, ?_, ?_, ?_, ?_, ?_, ?_, ?_⟩
  · intro p hp hne
    fin_cases hp
    · exact slow_query_ne_zeroDiv globalVars globalStatusMap
    · exact absurd rfl hne
    · exact aborted_connections_ne_zeroDiv globalVars globalStatusMap
    · exact aborted_clients_ne_zeroDiv globalVars globalStatusMap
    · exact read_write_ne_zeroDiv globalVars globalStatusMap true
    · exact read_write_ne_zeroDiv globalVars globalStatusMap false
    · exact query_cache_ne_zeroDiv globalVars globalStatusMap
    · exact joins_ne_zeroDiv globalVars globalStatusMap
    · exact table_cache_ne_zeroDiv globalVars globalStatusMap
    · exact open_file_ne_zeroDiv globalVars globalStatusMap
    · exact immediate_table_lock_ne_zeroDiv globalVars globalStatusMap himm
    · exact thread_cache_ne_zeroDiv globalVars globalStatusMap
    · exact tmp_disk_ne_zeroDiv globalVars globalStatusMap
  · intro h
    unfold derived_stat_slow_query_percentage
    simp [mapGet_eq_ok h, exceptBind_ok, pure, Except.pure]
  · intro h
    refine ⟨?_, ?_, ?_⟩
    · unfold derived_stat_aborted_clients_percentage
      simp [mapGet_eq_ok h, exceptBind_ok, pure, Except.pure]
    · unfold derived_stat_aborted_connections_percentage
      simp [mapGet_eq_ok h, exceptBind_ok, pure, Except.pure]
    · unfold derived_stat_thread_cache_hit_rate
      simp [mapGet_eq_ok h, exceptBind_ok, pure, Except.pure]
  · intro h
    unfold derived_stat_table_cache_hit_rate
    simp [mapGet_eq_ok h, exceptBind_ok, pure, Except.pure]
  · intro h
    unfold derived_stat_immediate_table_lock_percentage
    simp [mapGet_eq_ok h, exceptBind_ok, pure, Except.pure]
  · intro h
    unfold derived_stat_open_file_percentage
    simp [mapGet_eq_ok h, exceptBind_ok, pure, Except.pure]
  · intro h
    unfold derived_stat_tmp_disk_table_percentage
    simp [mapGet_eq_ok h, exceptBind_ok, pure, Except.pure]
  · intro h1 h2
    unfold derived_stat_query_cache_efficiency
    simp [mapGet_eq_ok h1, mapGet_eq_ok h2, exceptBind_ok, pure, Except.pure]
  · intro used mc h1 h2
    constructor
    · intro h0
      subst h0
      unfold derived_stat_connections_used_percentage
      simp [mapGet_eq_ok h1, mapGet_eq_ok h2, exceptBind_ok, pyDiv]
    · intro hne
      unfold derived_stat_connections_used_percentage
      simp only [mapGet_eq_ok h1, mapGet_eq_ok h2, exceptBind_ok, pyDiv,
        if_neg hne]
      refine ⟨if 100 * (used / mc) > 100 then 100 else 100 * (used / mc), rfl, ?_⟩
      split
      · exact le_refl _
      case isFalse h => exact le_of_not_lt h

/-- C1 witness: concrete maps exercising the guards, the non-zero defaults
and the unguarded connections-used division. -/
theorem c1_derived_stats_division_guards_witness :
    let gv : MetricMap := [("vars.max_connections", 10), ("vars.open_files_limit", 0)]
    let gs : MetricMap := [("global.questions", 0), ("global.connections", 0),
      ("global.opened_tables", 0), ("global.table_locks_waited", 0),
      ("global.table_locks_immediate", 3), ("global.created_tmp_tables", 0),
      ("global.com_select", 0), ("global.qcache_hits", 0),
      ("global.max_used_connections", 5)]
    (∀ p ∈ derivedStatsTable, p.1 ≠ "connections_used_percentage" →
      p.2 gv gs ≠ .error PyErr.zeroDivisionError)
    ∧ (gs.lookup "global.questions" = some 0 →
      derived_stat_slow_query_percentage gv gs = .ok 0)
    ∧ (gs.lookup "global.connections" = some 0 →
      derived_stat_aborted_clients_percentage gv gs = .ok 0
      ∧ derived_stat_aborted_connections_percentage gv gs = .ok 0
      ∧ derived_stat_thread_cache_hit_rate gv gs = .ok 100)
    ∧ (gs.lookup "global.opened_tables" = some 0 →
      derived_stat_table_cache_hit_rate gv gs = .ok 100)
    ∧ (gs.lookup "global.table_locks_waited" = some 0 →
      derived_stat_immediate_table_lock_percentage gv gs = .ok 100)
    ∧ (gv.lookup "vars.open_files_limit" = some 0 →
      derived_stat_open_file_percentage gv gs = .ok 0)
    ∧ (gs.lookup "global.created_tmp_tables" = some 0 →
      derived_stat_tmp_disk_table_percentage gv gs = .ok 0)
    ∧ (gs.lookup "global.com_select" = some 0 →
      gs.lookup "global.qcache_hits" = some 0 →
      derived_stat_query_cache_efficiency gv gs = .ok 0)
    ∧ (∀ used mc, gs.lookup "global.max_used_connections" = some used →
      gv.lookup "vars.max_connections" = some mc →
      (mc = 0 →
        derived_stat_connections_used_percentage gv gs =
          .error PyErr.zeroDivisionError)
      ∧ (mc ≠ 0 →
        ∃ pct, derived_stat_connections_used_percentage gv gs = .ok pct ∧ pct ≤ 100)) :=
  c1_derived_stats_division_guards _ _ (by
    intro x hx
    injection hx with h
    rw [← h]
    norm_num)

/-- C2 counterexample: both maps are non-empty, the status map lacks
'global.questions', and the derived-stats computation raises `KeyError`
instead of skipping the slow-query calculator and producing the other
records. -/
theorem c2_counterexample_missing_field_crashes :
    gather_derived_stats [("vars.max_connections", (100 : Rat))]
        [("global.slow_queries", (1 : Rat))] =
      .error (.keyError "global.questions") := by
  decide

/-- C2 (amended): with both maps non-empty and 'global.questions' absent
from the status map, `gather_derived_stats` raises the `KeyError` of the
first calculator that reads the missing field; no record list is produced
at all. -/
theorem c2_missing_field_raises_keyerror (globalVars globalStatusMap : MetricMap)
    (hv : globalVars ≠ []) (hs : globalStatusMap ≠ [])
    (hq : globalStatusMap.lookup "global.questions" = none) :
    gather_derived_stats globalVars globalStatusMap =
      .error (.keyError "global.questions") := by
  have hslow : derived_stat_slow_query_percentage globalVars globalStatusMap =
      .error (.keyError "global.questions") := by
    unfold derived_stat_slow_query_percentage mapGet
    rw [hq]
    rfl
  have hne : (globalVars.isEmpty || globalStatusMap.isEmpty) = false := by
    cases globalVars <;> cases globalStatusMap <;> simp_all
  unfold gather_derived_stats
  rw [hne]
  simp only [Bool.false_eq_true, if_false, derivedStatsTable, List.mapM_cons,
    bind_assoc, hslow, exceptBind_error]

/-- C2 witness: a concrete non-empty pair of maps with the field missing. -/
theorem c2_missing_field_raises_keyerror_witness :
    gather_derived_stats [("vars.max_connections", (50 : Rat))]
        [("global.com_select", (5 : Rat))] =
      .error (.keyError "global.questions") :=
  c2_missing_field_raises_keyerror _ _ (by decide) (by decide) (by decide)

/-- C3: the first-match policy does not hold — on a line matched by two
rules, `_parse_data` emits the outputs of both rules, because the
source's trailing `continue` (a no-op as the last statement of the rule
loop, where a `break` would implement the documented policy) never stops
rule evaluation for the line. -/
theorem c3_parse_data_emits_all_matching_rules :
    (parse_data "needle" [ruleOne, ruleTwo]).map (fun r => r.field) = ["a", "b"]
    ∧ parse_data "needle" [ruleOne, ruleTwo] =
      [MetricRecord.mk "a" (.int 1) [], MetricRecord.mk "b" (.int 2) []] := by
  constructor <;> rfl

/-- C8: the replication collector returns None for a `None`/empty query
result or a missing/empty/null upstream host; for a non-empty host it
returns the populated record list: the lag record exactly when
`seconds_behind_master` is a genuine integer, then bytes-executed,
bytes-relayed, and the two 0/1 thread flags computed by case-insensitive
comparison with "Yes". -/
theorem c8_cluster_status_shape :
    gather_cluster_status none = .ok none
    ∧ gather_cluster_status (some []) = .ok none
    ∧ (∀ (row : SlaveRow) (rest : List SlaveRow),
        (row.lookup "master_host" = none
          ∨ row.lookup "master_host" = some (.vstr "")
          ∨ row.lookup "master_host" = some .vnull) →
        gather_cluster_status (some (row :: rest)) = .ok none)
    ∧ (∀ (row : SlaveRow) (rest : List SlaveRow) (host : String)
        (ex rd : SqlVal) (io sq : String),
        row.lookup "master_host" = some (.vstr host) → host ≠ "" →
        row.lookup "exec_master_log_pos" = some ex →
        row.lookup "read_master_log_pos" = some rd →
        row.lookup "slave_io_running" = some (.vstr io) →
        row.lookup "slave_sql_running" = some (.vstr sq) →
        gather_cluster_status (some (row :: rest)) = .ok (some (
          (match row.lookup "seconds_behind_master" with
           | some (.vint n) => [MetricRecord.mk "slave.seconds_behind_master" (.int n) []]
           | _ => []) ++
          [MetricRecord.mk "slave.bytes_executed" (sqlToScalar ex) [],
           MetricRecord.mk "slave.bytes_relayed" (sqlToScalar rd) [],
           MetricRecord.mk "slave.thread_io_running"
             (.int (if pyLower io = "yes" then 1 else 0)) [],
           MetricRecord.mk "slave.thread_sql_running"
             (.int (if pyLower sq = "yes" then 1 else 0)) []]))) := by
  refine ⟨rfl, rfl, ?_, ?_⟩
  · intro row rest h
    rcases h with h | h | h <;> simp [gather_cluster_status, h, sqlTruthy] <;> rfl
  · intro row rest host ex rd io sq hhost hne hex hrd hio hsq
    simp [gather_cluster_status, hhost, hex, hrd, hio, hsq, sqlTruthy, hne,
      rowGet, isyes, exceptBind_ok]

/-- C8 witness: a replica row with host "db1", a NULL lag (record omitted),
and thread flags "Yes"/"no" yielding 1 and 0. -/
theorem c8_cluster_status_shape_witness :
    gather_cluster_status (some [[("master_host", SqlVal.vstr "db1"),
        ("seconds_behind_master", SqlVal.vnull),
        ("exec_master_log_pos", SqlVal.vint 100),
        ("read_master_log_pos", SqlVal.vint 120),
        ("slave_io_running", SqlVal.vstr "Yes"),
        ("slave_sql_running", SqlVal.vstr "no")]]) =
      .ok (some [MetricRecord.mk "slave.bytes_executed" (.int 100) [],
        MetricRecord.mk "slave.bytes_relayed" (.int 120) [],
        MetricRecord.mk "slave.thread_io_running" (.int 1) [],
        MetricRecord.mk "slave.thread_sql_running" (.int 0) []]) := by
  have h := c8_cluster_status_shape.2.2.2
    [("master_host", SqlVal.vstr "db1"),
     ("seconds_behind_master", SqlVal.vnull),
     ("exec_master_log_pos", SqlVal.vint 100),
     ("read_master_log_pos", SqlVal.vint 120),
     ("slave_io_running", SqlVal.vstr "Yes"),
     ("slave_sql_running", SqlVal.vstr "no")] [] "db1"
    (SqlVal.vint 100) (SqlVal.vint 120) "Yes" "no"
    (by decide) (by decide) (by decide) (by decide) (by decide) (by decide)
  exact h.trans (by decide)

/-- C4: on the "server gone away" transport error (code 2006) `_query`
performs exactly one reconnect and returns the no-result signal; on every
other operational error it raises without reconnecting. -/
theorem c4_query_gone_away_single_reconnect (Row : Type) (st : DBState)
    (errcode : Int) (msg : String) :
    (errcode = 2006 →
      dbQuery Row st (.operationalError errcode msg) =
        ({ reconnectCount := st.reconnectCount + 1 }, .ok none))
    ∧ (errcode ≠ 2006 →
      dbQuery Row st (.operationalError errcode msg) =
        (st, .error .typeError)) := by
  constructor <;> intro h <;> simp [dbQuery, dbReconnect, h]

/-- C4 witness: code 2006 reconnects once and yields the no-result signal;
code 1045 raises with no reconnect. -/
theorem c4_query_gone_away_single_reconnect_witness :
    dbQuery Unit ⟨0⟩ (.operationalError 2006 "gone") = (⟨1⟩, .ok none)
    ∧ dbQuery Unit ⟨0⟩ (.operationalError 1045 "denied") =
        (⟨0⟩, .error .typeError) :=
  ⟨(c4_query_gone_away_single_reconnect Unit ⟨0⟩ 2006 "gone").1 rfl,
   (c4_query_gone_away_single_reconnect Unit ⟨0⟩ 1045 "denied").2 (by decide)⟩

/-- C5 counterexample: the suffixed version string "5.7.2-log" does not
fail the parse — its first two dot components are clean integers — so the
identity keeps major 5, medium 7 and the original string instead of
degrading to `(0, 0, "unknown")`. -/
theorem c5_counterexample_suffixed_version_parses :
    parseVersion "5.7.2-log" =
      { versionString := "5.7.2-log", majorVersion := 5, mediumVersion := 7 }
    ∧ parseVersion "5.7.2-log" ≠
      { versionString := "unknown", majorVersion := 0, mediumVersion := 0 } := by
  constructor <;> decide

/-- C5 (amended): whenever coercing either of the first two dot components
of the version string to an integer fails, the server identity degrades to
major 0, medium 0, version "unknown" (and the surrounding connect logic
treats this as recoverable, not fatal). -/
theorem c5_version_parse_failure_degrades (v : String)
    (h : ((pySplitDot v).get? 0 >>= pyInt?) = none
      ∨ ((pySplitDot v).get? 1 >>= pyInt?) = none) :
    parseVersion v =
      { versionString := "unknown", majorVersion := 0, mediumVersion := 0 } := by
  unfold parseVersion
  dsimp only
  split
  · rcases h with h | h <;> simp_all
  · rfl

/-- C5 witness: "5.7-log" genuinely fails the parse (its second component
"7-log" is not an integer) and degrades. -/
theorem c5_version_parse_failure_degrades_witness :
    parseVersion "5.7-log" =
      { versionString := "unknown", majorVersion := 0, mediumVersion := 0 } :=
  c5_version_parse_failure_degrades "5.7-log" (Or.inr (by decide))

/-- C9: when `_query` yields the no-result signal, the status-counter,
configuration-variable and connection-census collectors iterate over the
absent result and raise, rather than returning `None` or an empty list
(the status collector provided its version gate lets the query run). -/
theorem c9_collectors_raise_on_no_result (major medium : Int)
    (hsafe : isShowGlobalStatusSafe major medium = true) :
    gather_global_status major medium none = .error .typeError
    ∧ gather_global_variables none = .error .typeError
    ∧ gather_process_information none = .error .typeError := by
  refine ⟨?_, rfl, rfl⟩
  simp [gather_global_status, hsafe]

/-- C9 witness: on a 5.1 server all three collectors raise on the
no-result signal. -/
theorem c9_collectors_raise_on_no_result_witness :
    gather_global_status 5 1 none = .error .typeError
    ∧ gather_global_variables none = .error .typeError
    ∧ gather_process_information none = .error .typeError :=
  c9_collectors_raise_on_no_result 5 1 (by decide)

/-- C10: the census groups rows by the raw command string and normalizes
only when emitting, so two rows whose commands differ only in case yield
two records with the identical field name "process.sleep", breaking
field-name uniqueness. -/
theorem c10_census_groups_raw_normalizes_late :
    gather_process_information (some
      [⟨.vint 1, .vstr "u", .vstr "h", .vnull, .vstr "Sleep", .vint 10, .vstr ""⟩,
       ⟨.vint 2, .vstr "u", .vstr "h", .vnull, .vstr "sleep", .vint 20, .vstr ""⟩]) =
      .ok (some [MetricRecord.mk "process.sleep" (.int 1) [],
                 MetricRecord.mk "process.sleep" (.int 1) []])
    ∧ ¬ (["process.sleep", "process.sleep"] : List String).Nodup := by
  constructor
  · decide
  · decide

/-- Closed-form evaluation of the shared read/write helper when all five
counters are present and the guard passes. -/
theorem read_write_eval (v s : MetricMap) (doRead : Bool)
    (reads del ins upd rep : Rat)
    (h1 : s.lookup "global.com_select" = some reads)
    (h2 : s.lookup "global.com_delete" = some del)
    (h3 : s.lookup "global.com_insert" = some ins)
    (h4 : s.lookup "global.com_update" = some upd)
    (h5 : s.lookup "global.com_replace" = some rep)
    (hpos : reads + (del + ins + upd + rep) > 0) :
    derived_stat_read_write_percentage v s doRead =
      .ok (100 * ((if doRead then reads else del + ins + upd + rep) /
        (del + ins + upd + rep + reads))) := by
  have hden : del + ins + upd + rep + reads ≠ 0 := by
    intro h0
    rw [add_comm reads (del + ins + upd + rep)] at hpos
    exact absurd h0 (ne_of_gt hpos)
  unfold derived_stat_read_write_percentage
  simp only [mapGet_eq_ok h1, mapGet_eq_ok h2, mapGet_eq_ok h3, mapGet_eq_ok h4,
    mapGet_eq_ok h5, exceptBind_ok]
  rw [if_pos hpos]
  simp [pyDiv, hden, exceptBind_ok, pure, Except.pure]

section ConcreteRatComputation

attribute [local semireducible] Rat.add Rat.mul Rat.inv Rat.sub

set_option maxRecDepth 4000

/-- C6 counterexample: the source computes the shares with Python floats,
i.e. in IEEE binary64.  At reads = 1, writes = 2 the code emits the
doubles 2345624805922133/2^46 (read) and 2345624805922133/2^45 (write),
whose sum is 7036874417766399/2^46 ≠ 100 — the two derived percentages do
not sum to 100.0 even though reads + writes > 0. -/
theorem c6_counterexample_float_sum_not_100 :
    derived_stat_read_percentage_fp [("vars.max_connections", (1 : Rat))]
        [("global.com_select", (1 : Rat)), ("global.com_delete", (2 : Rat)),
         ("global.com_insert", (0 : Rat)), ("global.com_update", (0 : Rat)),
         ("global.com_replace", (0 : Rat))] =
      .ok (2345624805922133 / 70368744177664)
    ∧ derived_stat_write_percentage_fp [("vars.max_connections", (1 : Rat))]
        [("global.com_select", (1 : Rat)), ("global.com_delete", (2 : Rat)),
         ("global.com_insert", (0 : Rat)), ("global.com_update", (0 : Rat)),
         ("global.com_replace", (0 : Rat))] =
      .ok (2345624805922133 / 35184372088832)
    ∧ ((2345624805922133 : Rat) / 70368744177664 + 2345624805922133 / 35184372088832)
        ≠ 100 := by
  refine ⟨by decide, by decide, by decide⟩

end ConcreteRatComputation

/-- C6 (amended): in exact arithmetic the derived read share plus the
derived write share equals 100 whenever reads + writes > 0, and both are 0
when all five counters are 0; the binary64 doubles the implementation
emits sum to 100 only up to floating-point rounding (see the
counterexample). -/
theorem c6_read_write_shares_sum (globalVars globalStatusMap : MetricMap)
    (reads del ins upd rep : Rat)
    (h1 : globalStatusMap.lookup "global.com_select" = some reads)
    (h2 : globalStatusMap.lookup "global.com_delete" = some del)
    (h3 : globalStatusMap.lookup "global.com_insert" = some ins)
    (h4 : globalStatusMap.lookup "global.com_update" = some upd)
    (h5 : globalStatusMap.lookup "global.com_replace" = some rep) :
    (reads + (del + ins + upd + rep) > 0 →
      ∃ rp wp, derived_stat_read_percentage globalVars globalStatusMap = .ok rp
        ∧ derived_stat_write_percentage globalVars globalStatusMap = .ok wp
        ∧ rp + wp = 100)
    ∧ (reads = 0 → del = 0 → ins = 0 → upd = 0 → rep = 0 →
      derived_stat_read_percentage globalVars globalStatusMap = .ok 0
        ∧ derived_stat_write_percentage globalVars globalStatusMap = .ok 0) := by
  constructor
  · intro hpos
    have hden : del + ins + upd + rep + reads ≠ 0 := by
      intro h0
      rw [add_comm reads (del + ins + upd + rep)] at hpos
      exact absurd h0 (ne_of_gt hpos)
    refine ⟨100 * (reads / (del + ins + upd + rep + reads)),
      100 * ((del + ins + upd + rep) / (del + ins + upd + rep + reads)), ?_, ?_, ?_⟩
    · unfold derived_stat_read_percentage
      simpa using read_write_eval globalVars globalStatusMap true
        reads del ins upd rep h1 h2 h3 h4 h5 hpos
    · unfold derived_stat_write_percentage
      simpa using read_write_eval globalVars globalStatusMap false
        reads del ins upd rep h1 h2 h3 h4 h5 hpos
    · field_simp
      ring
  · intro hr hd hi hu hp
    subst hr; subst hd; subst hi; subst hu; subst hp
    constructor
    · unfold derived_stat_read_percentage derived_stat_read_write_percentage
      simp only [mapGet_eq_ok h1, mapGet_eq_ok h2, mapGet_eq_ok h3, mapGet_eq_ok h4,
        mapGet_eq_ok h5, exceptBind_ok]
      norm_num [pure, Except.pure]
    · unfold derived_stat_write_percentage derived_stat_read_write_percentage
      simp only [mapGet_eq_ok h1, mapGet_eq_ok h2, mapGet_eq_ok h3, mapGet_eq_ok h4,
        mapGet_eq_ok h5, exceptBind_ok]
      norm_num [pure, Except.pure]

/-- C6 witness: at reads = 1, writes = 3 the exact shares are 25 and 75,
which sum to 100; at all-zero counters both are 0. -/
theorem c6_read_write_shares_sum_witness :
    ((1 : Rat) + (1 + 1 + 1 + 0) > 0 →
      ∃ rp wp, derived_stat_read_percentage []
          [("global.com_select", (1 : Rat)), ("global.com_delete", (1 : Rat)),
           ("global.com_insert", (1 : Rat)), ("global.com_update", (1 : Rat)),
           ("global.com_replace", (0 : Rat))] = .ok rp
        ∧ derived_stat_write_percentage []
          [("global.com_select", (1 : Rat)), ("global.com_delete", (1 : Rat)),
           ("global.com_insert", (1 : Rat)), ("global.com_update", (1 : Rat)),
           ("global.com_replace", (0 : Rat))] = .ok wp
        ∧ rp + wp = 100)
    ∧ ((1 : Rat) = 0 → (1 : Rat) = 0 → (1 : Rat) = 0 → (1 : Rat) = 0 → (0 : Rat) = 0 →
      derived_stat_read_percentage []
          [("global.com_select", (1 : Rat)), ("global.com_delete", (1 : Rat)),
           ("global.com_insert", (1 : Rat)), ("global.com_update", (1 : Rat)),
           ("global.com_replace", (0 : Rat))] = .ok 0
        ∧ derived_stat_write_percentage []
          [("global.com_select", (1 : Rat)), ("global.com_delete", (1 : Rat)),
           ("global.com_insert", (1 : Rat)), ("global.com_update", (1 : Rat)),
           ("global.com_replace", (0 : Rat))] = .ok 0) :=
  c6_read_write_shares_sum [] _ 1 1 1 1 0 (by decide) (by decide) (by decide)
    (by decide) (by decide)

theorem natDecAux_append (n : Nat) : ∀ acc, natDecAux n acc = natDecAux n [] ++ acc := by
  induction n using Nat.strong_induction_on with
  | _ n ih =>
    intro acc
    match n with
    | 0 => simp [natDecAux]
    | m + 1 =>
      have hlt : (m + 1) / 10 < m + 1 := Nat.div_lt_self (Nat.succ_pos m) (by norm_num)
      rw [natDecAux, natDecAux, ih ((m + 1) / 10) hlt (decChar ((m + 1) % 10) :: acc),
        ih ((m + 1) / 10) hlt [decChar ((m + 1) % 10)]]
      simp

theorem decChar_isDecDigit {m : Nat} (h : m < 10) : isDecDigit (decChar m) = true := by
  interval_cases m <;> decide

theorem decDigitVal_decChar {m : Nat} (h : m < 10) : decDigitVal (decChar m) = m := by
  interval_cases m <;> decide

theorem natDecAux_digits (n : Nat) : ∀ c ∈ natDecAux n [], isDecDigit c = true := by
  induction n using Nat.strong_induction_on with
  | _ n ih =>
    match n with
    | 0 => intro c hc; simp [natDecAux] at hc
    | m + 1 =>
      intro c hc
      have hlt : (m + 1) / 10 < m + 1 := Nat.div_lt_self (Nat.succ_pos m) (by norm_num)
      rw [natDecAux, natDecAux_append] at hc
      rcases List.mem_append.mp hc with hc2 | hc2
      · exact ih ((m + 1) / 10) hlt c hc2
      · rw [List.mem_singleton.mp hc2]
        exact decChar_isDecDigit (Nat.mod_lt _ (by norm_num))

theorem natDecChars_digits (n : Nat) : ∀ c ∈ natDecChars n, isDecDigit c = true := by
  unfold natDecChars
  split
  · intro c hc; rw [List.mem_singleton.mp hc]; decide
  · exact natDecAux_digits n

theorem digitsVal_natDecAux (n : Nat) : digitsVal (natDecAux n []) = n := by
  induction n using Nat.strong_induction_on with
  | _ n ih =>
    match n with
    | 0 => rw [natDecAux]; rfl
    | m + 1 =>
      have hlt : (m + 1) / 10 < m + 1 := Nat.div_lt_self (Nat.succ_pos m) (by norm_num)
      rw [natDecAux, natDecAux_append]
      unfold digitsVal
      rw [List.foldl_append]
      have hval : digitsVal (natDecAux ((m + 1) / 10) []) = (m + 1) / 10 :=
        ih ((m + 1) / 10) hlt
      unfold digitsVal at hval
      rw [hval]
      simp only [List.foldl_cons, List.foldl_nil,
        decDigitVal_decChar (Nat.mod_lt (m + 1) (by norm_num))]
      omega

theorem digitsVal_natDecChars (n : Nat) : digitsVal (natDecChars n) = n := by
  unfold natDecChars
  split
  case isTrue h => rw [h]; rfl
  case isFalse h => exact digitsVal_natDecAux n

theorem natDecChars_ne_nil (n : Nat) : natDecChars n ≠ [] := by
  unfold natDecChars
  split
  · simp
  case isFalse h =>
    match n, h with
    | m + 1, _ =>
      rw [natDecAux, natDecAux_append]
      simp

theorem parseDigits_natDecChars (n : Nat) : parseDigits? (natDecChars n) = some n := by
  unfold parseDigits?
  rw [if_pos ⟨natDecChars_ne_nil n, List.all_eq_true.mpr (natDecChars_digits n)⟩,
    digitsVal_natDecChars]

theorem dropWhile_eq_self_of_none (p : Char → Bool) (cs : List Char)
    (h : ∀ c ∈ cs, p c = false) : cs.dropWhile p = cs := by
  cases cs with
  | nil => rfl
  | cons c rest => simp [List.dropWhile_cons, h c (List.mem_cons_self c rest)]

theorem trimChars_eq_self (cs : List Char) (h : ∀ c ∈ cs, isPySpace c = false) :
    trimChars cs = cs := by
  unfold trimChars
  rw [dropWhile_eq_self_of_none _ _ h,
    dropWhile_eq_self_of_none _ _ (fun c hc => h c (List.mem_reverse.mp hc)),
    List.reverse_reverse]

theorem isDecDigit_not_pyspace {c : Char} (h : isDecDigit c = true) :
    isPySpace c = false := by
  have hn : 48 ≤ c.toNat ∧ c.toNat ≤ 57 := by simpa [isDecDigit] using h
  simp only [isPySpace, Bool.or_eq_false_iff, decide_eq_false_iff_not]
  omega

theorem isDecDigit_ne_plus {c : Char} (h : isDecDigit c = true) : ¬(c = '+') := by
  intro he; subst he; exact absurd h (by decide)

theorem isDecDigit_ne_minus {c : Char} (h : isDecDigit c = true) : ¬(c = '-') := by
  intro he; subst he; exact absurd h (by decide)

theorem isDecDigit_ne_dot {c : Char} (h : isDecDigit c = true) : ¬(c = '.') := by
  intro he; subst he; exact absurd h (by decide)

theorem pyInt_intDec (i : Int) : pyInt? (intDec i) = some i := by
  have hdig := natDecChars_digits i.natAbs
  unfold intDec
  rcases lt_or_ge i 0 with hneg | hpos
  · rw [if_pos hneg]
    show pyInt? ⟨'-' :: natDecChars i.natAbs⟩ = some i
    unfold pyInt?
    have hns : ∀ c ∈ ('-' :: natDecChars i.natAbs), isPySpace c = false := by
      intro c hc
      rcases List.mem_cons.mp hc with rfl | hc2
      · decide
      · exact isDecDigit_not_pyspace (hdig c hc2)
    show (match trimChars ('-' :: natDecChars i.natAbs) with
      | [] => none
      | c :: cs =>
        if c = '+' then (Int.ofNat ·) <$> parseDigits? cs
        else if c = '-' then (fun n => -(Int.ofNat n : Int)) <$> parseDigits? cs
        else (Int.ofNat ·) <$> parseDigits? (c :: cs)) = some i
    rw [trimChars_eq_self _ hns]
    rw [show (match ('-' :: natDecChars i.natAbs) with
      | [] => (none : Option Int)
      | c :: cs =>
        if c = '+' then (Int.ofNat ·) <$> parseDigits? cs
        else if c = '-' then (fun n => -(Int.ofNat n : Int)) <$> parseDigits? cs
        else (Int.ofNat ·) <$> parseDigits? (c :: cs)) =
      (if ('-' : Char) = '+' then (Int.ofNat ·) <$> parseDigits? (natDecChars i.natAbs)
        else if ('-' : Char) = '-' then
          (fun n => -(Int.ofNat n : Int)) <$> parseDigits? (natDecChars i.natAbs)
        else (Int.ofNat ·) <$> parseDigits? ('-' :: natDecChars i.natAbs)) from rfl]
    rw [if_neg (by decide), if_pos rfl, parseDigits_natDecChars]
    simp only [Option.map_some, Option.some.injEq]
    rw [Int.ofNat_eq_coe]
    omega
  · rw [if_neg (not_lt.mpr hpos)]
    show pyInt? ⟨natDecChars i.natAbs⟩ = some i
    unfold pyInt?
    have hns : ∀ c ∈ natDecChars i.natAbs, isPySpace c = false :=
      fun c hc => isDecDigit_not_pyspace (hdig c hc)
    show (match trimChars (natDecChars i.natAbs) with
      | [] => none
      | c :: cs =>
        if c = '+' then (Int.ofNat ·) <$> parseDigits? cs
        else if c = '-' then (fun n => -(Int.ofNat n : Int)) <$> parseDigits? cs
        else (Int.ofNat ·) <$> parseDigits? (c :: cs)) = some i
    rw [trimChars_eq_self _ hns]
    rcases hcs : natDecChars i.natAbs with _ | ⟨c, rest⟩
    · exact absurd hcs (natDecChars_ne_nil i.natAbs)
    · have hc : isDecDigit c = true := hdig c (by rw [hcs]; exact List.mem_cons_self c rest)
      rw [show (match (c :: rest) with
        | [] => (none : Option Int)
        | c :: cs =>
          if c = '+' then (Int.ofNat ·) <$> parseDigits? cs
          else if c = '-' then (fun n => -(Int.ofNat n : Int)) <$> parseDigits? cs
          else (Int.ofNat ·) <$> parseDigits? (c :: cs)) =
        (if c = '+' then (Int.ofNat ·) <$> parseDigits? rest
          else if c = '-' then (fun n => -(Int.ofNat n : Int)) <$> parseDigits? rest
          else (Int.ofNat ·) <$> parseDigits? (c :: rest)) from rfl]
      rw [if_neg (isDecDigit_ne_plus hc), if_neg (isDecDigit_ne_minus hc),
        ← hcs, parseDigits_natDecChars]
      simp only [Option.map_some, Option.some.injEq]
      rw [Int.ofNat_eq_coe]
      omega

theorem strContainsChar_eq_false {s : String} {c : Char}
    (h : ∀ d ∈ s.data, ¬(d = c)) : strContainsChar s c = false := by
  unfold strContainsChar
  rw [List.any_eq_false]
  intro d hd
  simpa using h d hd

theorem intDec_no_dot (i : Int) : strContainsChar (intDec i) '.' = false := by
  apply strContainsChar_eq_false
  intro d hd
  have hdig := natDecChars_digits i.natAbs
  unfold intDec at hd
  split at hd
  · rcases List.mem_cons.mp hd with rfl | hd2
    · decide
    · exact isDecDigit_ne_dot (hdig d hd2)
  · exact isDecDigit_ne_dot (hdig d hd)

/-- C7 (amended): coercion of the stringified form is the identity on
integer scalars — `%d` rendering of an int always re-coerces to the same
int.  (On floats the `%f` rendering keeps only six fractional digits and
on strings the `%r` rendering adds quote characters, so the round-trip
fails there; see the counterexample.) -/
theorem c7_value_coercion_int_roundtrip (n : Int) :
    parse_value (get_value_as_str (.int n)) = .int n := by
  show parse_value (intDec n) = .int n
  unfold parse_value
  rw [intDec_no_dot n]
  simp only [Bool.false_eq_true, if_false, pyInt_intDec]

/-- C7 counterexample: the stringified form of the already-coerced string
scalar "abc" is the repr "'abc'" (with quote characters), and coercing
that yields the string "'abc'", not the original scalar — Value Coercion
composed with stringification is not idempotent on strings. -/
theorem c7_counterexample_string_not_idempotent :
    parse_value "abc" = .str "abc"
    ∧ get_value_as_str (.str "abc") = "'abc'"
    ∧ parse_value "'abc'" = .str "'abc'"
    ∧ Scalar.str "'abc'" ≠ Scalar.str "abc" := by
  refine ⟨by decide, by decide, by decide, by decide⟩

end MysqlMon
